import Mathlib

/-!
Verification of the rough Bergomi Monte Carlo engine (`src/model/rbergomi.py`).

The source is a single Python module built on numpy and the external `qablet`
base classes.  We embed it shallowly:

* Python/numpy floats become real numbers `ℝ`; simulation times become
  rationals `ℚ` (times only ever enter comparisons and arithmetic, and the
  concrete inputs of interest are decimal, so `ℚ` keeps the control flow
  decidable).
* numpy per-path arrays (`x_vec`, `V`) become functions `ℕ → ℝ` applied
  pointwise; the preallocated convolution buffers `G : zeros(1000)` and
  `X : zeros((n, 1000))` become functions with an explicit bound `1000`
  enforced at each write, since numpy raises `IndexError` on a scalar
  out-of-bounds index assignment.
* The external collaborators — the `Forwards` curve object
  (`asset_fwd.forward`, `asset_fwd.rate`) and the seeded generator
  `Generator(SFC64(seed))` with its `multivariate_normal` and `normal`
  methods — are modelled as abstract function parameters.  The generator is
  deterministic given the seed, so it is a pure function of its arguments and
  of how many draws were made before (tracked by `rngCount`, incremented once
  per generator call).  The `mean = [0, 0]` argument of `multivariate_normal`
  is the constant zero vector and is absorbed into the abstract draw function.
* A Python method that raises an exception leaves the object with every
  mutation made before the raise.  `advance` therefore returns the resulting
  state *together with* an optional error, and the error states record the
  partial mutations exactly as the statement order of the source produces
  them.
-/

namespace RBergomi

open Finset

/-- TBSS kernel `g(x, a) = x**a` applicable to the rBergomi variance process
(`def g` in the source); Python float `**` becomes real `rpow`. -/
noncomputable def g (x a : ℝ) : ℝ := x ^ a

/-- Optimal discretisation point of the TBSS process for minimising hybrid
scheme error (`def b` in the source):
`b(k, a) = ((k**(a+1) - (k-1)**(a+1)) / (a+1)) ** (1/a)`. -/
noncomputable def b (k : ℕ) (a : ℝ) : ℝ :=
  (((k : ℝ) ^ (a + 1) - ((k : ℝ) - 1) ^ (a + 1)) / (a + 1)) ^ (1 / a)

/-- Covariance matrix for given alpha and dt, assuming kappa = 1
(`def cov` in the source).  The source fills a zero 2×2 array with
`cov[0,0] = dt`, `cov[0,1] = dt**(a+1)/(a+1)`, `cov[1,1] = dt**(2a+1)/(2a+1)`
and mirrors `cov[1,0] = cov[0,1]`. -/
noncomputable def cov (a dt : ℝ) : Fin 2 → Fin 2 → ℝ :=
  ![![dt, dt ^ (a + 1) / (a + 1)],
    ![dt ^ (a + 1) / (a + 1), dt ^ (2 * a + 1) / (2 * a + 1)]]

/-- The immutable data `rBergomiMCState.__init__` fetches from the dataset,
together with the external collaborators it stores:

* `n`, `asset`, `a`, `rho`, `xi`, `eta` are the dataset entries
  `MC.PATHS`, `rB.ASSET`, `rB.ALPHA`, `rB.RHO`, `rB.XI`, `rB.ETA`;
* `fwd` and `rate` are the `Forwards` collaborator's methods
  (`asset_fwd.forward`, `asset_fwd.rate`);
* `mvn σ c i` is the pair drawn for path `i` by the `c`-th generator call
  when that call is `rng.multivariate_normal(mean, σ, n)` (mean is the zero
  vector), and `normal sd c i` is the draw for path `i` of the `c`-th
  generator call when that call is `rng.normal(0, sd, n)`.  Both are pure
  functions because the generator is seeded (`Generator(SFC64(seed))`). -/
structure Params where
  n : ℕ
  asset : String
  fwd : ℚ → ℝ
  rate : ℚ → ℚ → ℝ
  a : ℝ
  rho : ℝ
  xi : ℝ
  eta : ℝ
  mvn : (Fin 2 → Fin 2 → ℝ) → ℕ → ℕ → ℝ × ℝ
  normal : ℝ → ℕ → ℕ → ℝ

/-- `self.rho_comp = np.sqrt(1 - self.rho**2)`. -/
noncomputable def rhoComp (p : Params) : ℝ := Real.sqrt (1 - p.rho ^ 2)

/-- `self.spot = self.asset_fwd.forward(0)`. -/
noncomputable def spot (p : Params) : ℝ := p.fwd 0

/-- The mutable attributes of `rBergomiMCState`:
`x_vec` (log stock), `V` (variance), `G` (convolution weights, preallocated
for 1000 steps), `X` (per-path driver history, `X i j` is `X[i, j]`),
`k` (step counter), `cur_time`, and `rngCount`, the number of generator
calls made so far (position of the deterministic generator stream). -/
structure State where
  x_vec : ℕ → ℝ
  V : ℕ → ℝ
  G : ℕ → ℝ
  X : ℕ → ℕ → ℝ
  k : ℕ
  cur_time : ℚ
  rngCount : ℕ

/-- numpy raises `IndexError` on an out-of-bounds scalar index assignment;
this is the only failure `advance` can produce. -/
inductive StepError where
  | indexOutOfBounds
deriving DecidableEq

/-- State built by `rBergomiMCState.__init__`: `x_vec = zeros(n)`,
`V = full(n, xi)`, `G = zeros(1000)`, `X = zeros((n, 1000))`, `k = 0`,
`cur_time = 0`, no generator call made yet.  The constructor performs no
validation of any parameter: it only fetches dataset entries and fills
arrays, so it is a total function of the parameters. -/
def initState (_p : Params) : State :=
  { x_vec := fun _ => 0
    V := fun _ => _p.xi
    G := fun _ => 0
    X := fun _ _ => 0
    k := 0
    cur_time := 0
    rngCount := 0 }

/-- `dwv = rng.multivariate_normal(mean, cov(a, dt), n).transpose()`:
the pair `(dwv[0][i], dwv[1][i])` for path `i`, drawn at the current
generator position. -/
noncomputable def dwvOf (p : Params) (s : State) (dt : ℚ) : ℕ → ℝ × ℝ :=
  p.mvn (cov p.a (dt : ℝ)) s.rngCount

/-- `dws = rng.normal(0, sqrt(dt) * rho_comp, n); dws += rho * dwv[0]`:
the full price driver per path. -/
noncomputable def priceDriver (p : Params) (s : State) (dt : ℚ) : ℕ → ℝ :=
  fun i => p.normal (Real.sqrt (dt : ℝ) * rhoComp p) (s.rngCount + 1) i
    + p.rho * (dwvOf p s dt i).1

/-- The updated log stock process:
`x_vec += (fwd_rate - V/2) * dt; x_vec += sqrt(V) * dws`, with
`fwd_rate = asset_fwd.rate(new_time, cur_time)`. -/
noncomputable def xNext (p : Params) (s : State) (new_time : ℚ) : ℕ → ℝ :=
  fun i => s.x_vec i
    + (p.rate new_time s.cur_time - s.V i / 2) * ((new_time - s.cur_time : ℚ) : ℝ)
    + Real.sqrt (s.V i) * priceDriver p s (new_time - s.cur_time) i

/-- `self.X[:, self.k] = dwv[0]`: the driver history with column `k` filled. -/
noncomputable def XNext (p : Params) (s : State) (dt : ℚ) : ℕ → ℕ → ℝ :=
  fun i j => if j = s.k then (dwvOf p s dt i).1 else s.X i j

/-- `if self.k > 1: self.G[self.k] = g(b(self.k, a) * dt, a)` evaluated after
the increment `self.k += 1`: the weight array after the step. -/
noncomputable def GNext (p : Params) (s : State) (dt : ℚ) : ℕ → ℝ :=
  if 1 < s.k + 1 then
    Function.update s.G (s.k + 1) (g (b (s.k + 1) p.a * (dt : ℝ)) p.a)
  else s.G

/-- `YR = np.dot(self.X[:, : self.k - 1], self.G[self.k : 1 : -1])` with the
post-increment `k = s.k + 1`: pairs column `j` of the history
(`j = 0, …, s.k - 1`) with weight `G[(s.k + 1) - j]` (indices `s.k + 1`
down to `2`). -/
noncomputable def YROf (p : Params) (s : State) (dt : ℚ) : ℕ → ℝ :=
  fun i => ∑ j ∈ Finset.range s.k, XNext p s dt i j * GNext p s dt (s.k + 1 - j)

/-- `Y = np.sqrt(2*a + 1) * (YE + YR)` with `YE = dwv[1]`. -/
noncomputable def YOf (p : Params) (s : State) (dt : ℚ) : ℕ → ℝ :=
  fun i => Real.sqrt (2 * p.a + 1) * ((dwvOf p s dt i).2 + YROf p s dt i)

/-- `self.V = xi * np.exp(eta * Y - 0.5 * eta**2 * new_time**(2*a + 1))`. -/
noncomputable def VNext (p : Params) (s : State) (new_time : ℚ) : ℕ → ℝ :=
  fun i => p.xi * Real.exp (p.eta * YOf p s (new_time - s.cur_time) i
    - 0.5 * p.eta ^ 2 * ((new_time : ℝ)) ^ (2 * p.a + 1))

/-- The state after a fully successful `advance` body. -/
noncomputable def stepStateOk (p : Params) (s : State) (new_time : ℚ) : State :=
  { x_vec := xNext p s new_time
    V := VNext p s new_time
    G := GNext p s (new_time - s.cur_time)
    X := XNext p s (new_time - s.cur_time)
    k := s.k + 1
    cur_time := new_time
    rngCount := s.rngCount + 2 }

/-- The state left behind when `self.X[:, self.k] = dwv[0]` raises
`IndexError` (`self.k ≥ 1000`): both generator calls have happened and
`x_vec` has already been updated, but `X`, `k`, `G`, `V`, `cur_time` have
not. -/
noncomputable def stepStateErrX (p : Params) (s : State) (new_time : ℚ) : State :=
  { s with x_vec := xNext p s new_time, rngCount := s.rngCount + 2 }

/-- The state left behind when `self.G[self.k] = …` raises `IndexError`
(post-increment `self.k = s.k + 1 ≥ 1000`): `x_vec` updated, history column
written, `k` incremented, but `G`, `V`, `cur_time` untouched. -/
noncomputable def stepStateErrG (p : Params) (s : State) (new_time : ℚ) : State :=
  { s with x_vec := xNext p s new_time
           X := XNext p s (new_time - s.cur_time)
           k := s.k + 1
           rngCount := s.rngCount + 2 }

/-- `rBergomiMCState.advance(new_time)`.  Control flow of the source body:

1. `dt = new_time - cur_time; if dt < 1e-10: return` — early return, no
   mutation, no generator call;
2. otherwise both generator calls are made and `x_vec` is updated;
3. `self.X[:, self.k] = dwv[0]` raises `IndexError` when `1000 ≤ k`;
4. `self.k += 1`, then `if self.k > 1: self.G[self.k] = …` raises
   `IndexError` when the write happens (`1 < k+1`) with `1000 ≤ k+1`;
5. otherwise the convolution, the variance update and
   `cur_time = new_time` complete. -/
noncomputable def advance (p : Params) (s : State) (new_time : ℚ) :
    State × Option StepError :=
  if new_time - s.cur_time < 1e-10 then
    (s, none)
  else if 1000 ≤ s.k then
    (stepStateErrX p s new_time, some StepError.indexOutOfBounds)
  else if 1 < s.k + 1 ∧ 1000 ≤ s.k + 1 then
    (stepStateErrG p s new_time, some StepError.indexOutOfBounds)
  else
    (stepStateOk p s new_time, none)

/-- `rBergomiMCState.get_value(unit)`: the simulated asset is valued as
`spot * np.exp(x_vec)`; any other unit returns `None`, deferring to the
model base's default. -/
noncomputable def get_value (p : Params) (s : State) (unit : String) :
    Option (ℕ → ℝ) :=
  if unit = p.asset then some (fun i => spot p * Real.exp (s.x_vec i)) else none

/-- States reachable from construction through successful `advance` calls. -/
inductive Reachable (p : Params) : State → Prop
  | init : Reachable p (initState p)
  | step : ∀ (s : State) (t : ℚ) (s' : State), Reachable p s →
      advance p s t = (s', none) → Reachable p s'

/-! ### Branch lemmas for `advance` -/

lemma advance_of_lt_eps (p : Params) (s : State) (t : ℚ)
    (h : t - s.cur_time < 1e-10) : advance p s t = (s, none) := by
  rw [advance, if_pos h]

lemma advance_of_ok (p : Params) (s : State) (t : ℚ)
    (hdt : ¬ t - s.cur_time < 1e-10) (hk : s.k + 1 < 1000) :
    advance p s t = (stepStateOk p s t, none) := by
  have h2 : ¬ 1000 ≤ s.k := by omega
  have h3 : ¬ (1 < s.k + 1 ∧ 1000 ≤ s.k + 1) := by omega
  rw [advance, if_neg hdt, if_neg h2, if_neg h3]

lemma advance_of_errG (p : Params) (s : State) (t : ℚ)
    (hdt : ¬ t - s.cur_time < 1e-10) (hk : s.k = 999) :
    advance p s t = (stepStateErrG p s t, some StepError.indexOutOfBounds) := by
  have h2 : ¬ 1000 ≤ s.k := by omega
  have h3 : 1 < s.k + 1 ∧ 1000 ≤ s.k + 1 := by omega
  rw [advance, if_neg hdt, if_neg h2, if_pos h3]

/-- A successful `advance` either hit the tiny-step guard (state unchanged)
or ran the full step body. -/
lemma advance_eq_none_cases (p : Params) (s : State) (t : ℚ) (s' : State)
    (h : advance p s t = (s', none)) :
    s' = s ∨ s' = stepStateOk p s t := by
  by_cases h1 : t - s.cur_time < 1e-10
  · rw [advance_of_lt_eps p s t h1] at h
    exact Or.inl (Prod.mk.injEq .. ▸ h).1.symm
  · rw [advance] at h
    rw [if_neg h1] at h
    by_cases h2 : 1000 ≤ s.k
    · rw [if_pos h2] at h
      exact absurd (Prod.mk.injEq .. ▸ h).2 (by simp)
    · rw [if_neg h2] at h
      by_cases h3 : 1 < s.k + 1 ∧ 1000 ≤ s.k + 1
      · rw [if_pos h3] at h
        exact absurd (Prod.mk.injEq .. ▸ h).2 (by simp)
      · rw [if_neg h3] at h
        exact Or.inr (Prod.mk.injEq .. ▸ h).1.symm

/-! ### Concrete parameter fixtures

`pW` mirrors the demo dataset of the source's `__main__` block
(`ALPHA=-0.45`, `RHO=-0.8`, `XI=0.11`, `ETA=2.5`, flat forwards at 100,
zero rates), with the external generator abstracted to a trivial stream;
`pW0` is the same with `volOfVol = 0`; `pBad` has every parameter outside
its stated domain. -/

noncomputable def pW : Params :=
  { n := 2
    asset := "SPX"
    fwd := fun _ => 100
    rate := fun _ _ => 0
    a := -(9 / 20)
    rho := -(4 / 5)
    xi := 11 / 100
    eta := 5 / 2
    mvn := fun _ _ _ => (0, 0)
    normal := fun _ _ _ => 0 }

noncomputable def pW0 : Params :=
  { pW with eta := 0 }

noncomputable def pBad : Params :=
  { n := 0
    asset := "SPX"
    fwd := fun _ => 100
    rate := fun _ _ => 0
    a := 1
    rho := 2
    xi := -1
    eta := -1
    mvn := fun _ _ _ => (0, 0)
    normal := fun _ _ _ => 0 }

/-! ### C1 — backwards time is not rejected -/

/-- C1 counterexample: calling `advance` with `new_time = -1 < 0 = cur_time`
does not fail — there is no non-monotonic-time condition anywhere in
`advance`; the negative step satisfies `dt < 1e-10` and is silently
absorbed by the tiny-step guard, returning with no error and no mutation.
This refutes the claim that the call "fails with the non-monotonic-time
condition". -/
theorem advance_backward_no_failure_cex :
    (advance pW (initState pW) (-1)).2 = none ∧
    (advance pW (initState pW) (-1)).1 = initState pW := by
  have h : (-1 : ℚ) - (initState pW).cur_time < 1e-10 := by
    norm_num [initState]
  rw [advance_of_lt_eps pW (initState pW) (-1) h]
  exact ⟨rfl, rfl⟩

/-- C1 (amended): calling `advance(t)` with `t < currentTime` does not fail:
it returns normally with no error condition and does not mutate state,
because the negative step falls under the `dt < 1e-10` guard. -/
theorem advance_backward_time_noop (p : Params) (s : State) (t : ℚ)
    (h : t < s.cur_time) : advance p s t = (s, none) :=
  advance_of_lt_eps p s t (by
    have : t - s.cur_time < 0 := by linarith
    calc t - s.cur_time < 0 := this
      _ < 1e-10 := by norm_num)

/-- C1 witness: the amended theorem applied at `t = -2` on the freshly
constructed state (`cur_time = 0`). -/
theorem advance_backward_time_noop_witness :
    (-2 : ℚ) < (initState pW).cur_time ∧
    advance pW (initState pW) (-2) = (initState pW, none) :=
  ⟨by norm_num [initState],
   advance_backward_time_noop pW (initState pW) (-2) (by norm_num [initState])⟩

/-! ### C2 — construction performs no validation -/

/-- C2 counterexample: `pBad` has every parameter outside the stated domain
(`roughness = 1 ∉ (−0.5, 0)`, `correlation = 2 ∉ [−1, 1]`,
`baseVariance = −1 ≤ 0`, `volOfVol = −1 < 0`, `pathCount = 0`), yet
construction completes normally: `__init__` only fetches dataset entries
and fills arrays, so the embedded constructor is a total function and the
invalid set produces an ordinary initial state (with the invalid
`baseVariance` already copied into the variance array).  This refutes the
claim that construction rejects invalid parameter sets with a synchronous
error. -/
theorem initState_accepts_invalid_params_cex :
    (initState pBad).k = 0 ∧ (initState pBad).cur_time = 0 ∧
    (∀ i, (initState pBad).x_vec i = 0) ∧
    (∀ i, (initState pBad).V i = pBad.xi) ∧
    (initState pBad).V 0 = -1 := by
  refine ⟨rfl, rfl, fun _ => rfl, fun _ => rfl, ?_⟩
  show pBad.xi = -1
  norm_num [pBad]

/-- C2 (amended): construction performs no parameter validation at all —
for every parameter set, valid or not, `__init__` completes synchronously
and produces the initial state (`k = 0`, `cur_time = 0`, zero log-price,
variance filled with `baseVariance`, no randomness consumed); invalid
parameters are not rejected and can only surface later as NaN
propagation. -/
theorem initState_no_validation (p : Params) :
    (initState p).k = 0 ∧ (initState p).cur_time = 0 ∧
    (∀ i, (initState p).x_vec i = 0) ∧
    (∀ i, (initState p).V i = p.xi) ∧
    (initState p).rngCount = 0 :=
  ⟨rfl, rfl, fun _ => rfl, fun _ => rfl, rfl⟩

/-! ### C4 — tiny non-negative step is a no-op -/

/-- C4: a call `advance(t)` with `0 ≤ t − currentTime < 1e-10` (in
particular the zero step `advance(currentTime)`) returns without error and
without mutating any field — `logPrice`, `variance`, `stepCount`,
`currentTime`, the driver history, the kernel weights — and without
consuming a draw from the generator (the whole state, `rngCount`
included, is returned unchanged). -/
theorem advance_tiny_step_noop (p : Params) (s : State) (t : ℚ)
    (h0 : 0 ≤ t - s.cur_time) (h1 : t - s.cur_time < 1e-10) :
    advance p s t = (s, none) :=
  advance_of_lt_eps p s t h1

/-- C4 witness: the zero step `advance(currentTime)` on the fresh state. -/
theorem advance_tiny_step_noop_witness :
    (0 : ℚ) ≤ 0 - (initState pW).cur_time ∧
    (0 : ℚ) - (initState pW).cur_time < 1e-10 ∧
    advance pW (initState pW) 0 = (initState pW, none) :=
  ⟨by norm_num [initState], by norm_num [initState],
   advance_tiny_step_noop pW (initState pW) 0 (by norm_num [initState])
     (by norm_num [initState])⟩

/-! ### C10 — backwards time behaves exactly like the tiny-step no-op -/

/-- C10: calling `advance(t)` with `t < currentTime` returns normally (no
error is raised) and, field by field, leaves `logPrice`, `variance`,
`stepCount`, `currentTime`, the driver history, the kernel weights and the
generator position unchanged: the backwards-time call is absorbed by the
same `dt < 1e-10` guard as a zero step. -/
theorem advance_backward_absorbed_fields (p : Params) (s : State) (t : ℚ)
    (h : t < s.cur_time) :
    (advance p s t).2 = none ∧
    (advance p s t).1.x_vec = s.x_vec ∧
    (advance p s t).1.V = s.V ∧
    (advance p s t).1.k = s.k ∧
    (advance p s t).1.cur_time = s.cur_time ∧
    (advance p s t).1.X = s.X ∧
    (advance p s t).1.G = s.G ∧
    (advance p s t).1.rngCount = s.rngCount := by
  have heq : advance p s t = (s, none) :=
    advance_of_lt_eps p s t (by
      have h0 : t - s.cur_time < 0 := by linarith
      calc t - s.cur_time < 0 := h0
        _ < 1e-10 := by norm_num)
  rw [heq]
  exact ⟨rfl, rfl, rfl, rfl, rfl, rfl, rfl, rfl⟩

/-- C10 witness: the backwards call at `t = -3` on the fresh state. -/
theorem advance_backward_absorbed_fields_witness :
    (-3 : ℚ) < (initState pW).cur_time ∧
    (advance pW (initState pW) (-3)).2 = none ∧
    (advance pW (initState pW) (-3)).1.k = (initState pW).k :=
  ⟨by norm_num [initState],
   (advance_backward_absorbed_fields pW (initState pW) (-3)
      (by norm_num [initState])).1,
   (advance_backward_absorbed_fields pW (initState pW) (-3)
      (by norm_num [initState])).2.2.2.1⟩

/-! ### C9 — `get_value` -/

/-- C9: `get_value` applied to the simulated asset returns
`spot · exp(logPrice)` elementwise across paths; applied to any other
instrument identifier it returns `None`, the "not handled here" sentinel
that defers to the model base's default valuation. -/
theorem get_value_cases (p : Params) (s : State) (u : String) :
    (u = p.asset →
      get_value p s u = some (fun i => spot p * Real.exp (s.x_vec i))) ∧
    (u ≠ p.asset → get_value p s u = none) := by
  constructor
  · intro h
    rw [get_value, if_pos h]
  · intro h
    rw [get_value, if_neg h]

/-- C9 witness: the simulated asset `"SPX"` is valued from the paths, and
the foreign identifier `"AAPL"` yields the sentinel. -/
theorem get_value_cases_witness :
    get_value pW (initState pW) "SPX"
      = some (fun i => spot pW * Real.exp ((initState pW).x_vec i)) ∧
    get_value pW (initState pW) "AAPL" = none :=
  ⟨(get_value_cases pW (initState pW) "SPX").1 rfl,
   (get_value_cases pW (initState pW) "AAPL").2 (by simp [pW])⟩

/-! ### C7 — the covariance matrix -/

/-- C7: for roughness `α ∈ (−0.5, 0)` and step `dt > 0`, the covariance
builder returns the symmetric 2×2 matrix with `cov[0][0] = dt`,
`cov[0][1] = cov[1][0] = dt^(α+1)/(α+1)` and
`cov[1][1] = dt^(2α+1)/(2α+1)`. -/
theorem cov_entries (a dt : ℝ) (h1 : -(1 / 2 : ℝ) < a) (h2 : a < 0)
    (h3 : 0 < dt) :
    cov a dt 0 0 = dt ∧
    cov a dt 0 1 = dt ^ (a + 1) / (a + 1) ∧
    cov a dt 1 0 = cov a dt 0 1 ∧
    cov a dt 1 1 = dt ^ (2 * a + 1) / (2 * a + 1) := by
  refine ⟨rfl, rfl, rfl, rfl⟩

/-- C7 witness: the theorem at `α = −1/4`, `dt = 1`. -/
theorem cov_entries_witness :
    (-(1 / 2 : ℝ) < -(1 / 4 : ℝ)) ∧ (-(1 / 4 : ℝ) < 0) ∧ ((0 : ℝ) < 1) ∧
    (cov (-(1 / 4)) 1 0 0 = 1 ∧
     cov (-(1 / 4)) 1 0 1 = (1 : ℝ) ^ (-(1 / 4 : ℝ) + 1) / (-(1 / 4 : ℝ) + 1) ∧
     cov (-(1 / 4)) 1 1 0 = cov (-(1 / 4)) 1 0 1 ∧
     cov (-(1 / 4)) 1 1 1
       = (1 : ℝ) ^ (2 * -(1 / 4 : ℝ) + 1) / (2 * -(1 / 4 : ℝ) + 1)) :=
  ⟨by norm_num, by norm_num, by norm_num,
   cov_entries (-(1 / 4)) 1 (by norm_num) (by norm_num) (by norm_num)⟩

/-! ### C5 — strict positivity of the variance -/

/-- C5: with `baseVariance ξ > 0`, every path's variance is strictly
positive after initialization and stays strictly positive after every
sequence of successful `advance` calls: the step writes
`V = ξ · exp(η·Y − ½η²·t^(2α+1))`, a positive multiple of an
exponential. -/
theorem variance_positive (p : Params) (hxi : 0 < p.xi) {s : State}
    (hs : Reachable p s) : ∀ i, 0 < s.V i := by
  induction hs with
  | init =>
      intro i
      exact hxi
  | step s t s' _ heq ih =>
      rcases advance_eq_none_cases p s t s' heq with h | h
      · rw [h]; exact ih
      · intro i
        rw [h]
        exact mul_pos hxi (Real.exp_pos _)

/-- C5 witness: at `ξ = 0.11 > 0`, the fresh state (reachable by
construction) has positive variance on every path. -/
theorem variance_positive_witness :
    (0 : ℝ) < pW.xi ∧ ∀ i, 0 < (initState pW).V i :=
  ⟨by norm_num [pW],
   variance_positive pW (by norm_num [pW]) (Reachable.init)⟩

/-! ### C6 — zero vol-of-vol freezes the variance -/

/-- C6: with `volOfVol η = 0`, every path's variance equals `baseVariance`
after initialization and after every sequence of successful `advance`
calls: the step writes `V = ξ · exp(0·Y − ½·0²·t^(2α+1)) = ξ`, so the
log-vol driver vanishes and the price process is driven by the constant
variance `ξ` alone. -/
theorem variance_constant_eta_zero (p : Params) (heta : p.eta = 0)
    {s : State} (hs : Reachable p s) : ∀ i, s.V i = p.xi := by
  induction hs with
  | init =>
      intro i
      rfl
  | step s t s' _ heq ih =>
      rcases advance_eq_none_cases p s t s' heq with h | h
      · rw [h]; exact ih
      · intro i
        rw [h]
        show p.xi * Real.exp (p.eta * YOf p s (t - s.cur_time) i
          - 0.5 * p.eta ^ 2 * ((t : ℝ)) ^ (2 * p.a + 1)) = p.xi
        rw [heta]
        norm_num

/-- C6 witness: at `η = 0`, the fresh state has variance `ξ` on every
path. -/
theorem variance_constant_eta_zero_witness :
    pW0.eta = 0 ∧ ∀ i, (initState pW0).V i = pW0.xi :=
  ⟨rfl, variance_constant_eta_zero pW0 rfl (Reachable.init)⟩

/-! ### C8 — one kernel weight per step after the first -/

/-- C8: an effective `advance` (step at least the threshold, history not at
capacity) succeeds, increments the step counter, and: when the
post-increment step count is ≥ 2 it writes exactly one new convolution
weight, at index `stepCount`, with value
`g(b(stepCount, α)·dt, α)` — all other weights unchanged
(`Function.update`); when it is the first step (post-increment count 1) the
weight array is untouched. -/
theorem kernel_weight_step (p : Params) (s : State) (t : ℚ)
    (hdt : ¬ t - s.cur_time < 1e-10) (hk : s.k + 1 < 1000) :
    (advance p s t).2 = none ∧
    (advance p s t).1.k = s.k + 1 ∧
    (2 ≤ s.k + 1 →
      (advance p s t).1.G =
        Function.update s.G (s.k + 1)
          (g (b (s.k + 1) p.a * ((t - s.cur_time : ℚ) : ℝ)) p.a)) ∧
    (s.k + 1 = 1 → (advance p s t).1.G = s.G) := by
  rw [advance_of_ok p s t hdt hk]
  refine ⟨rfl, rfl, ?_, ?_⟩
  · intro h2
    show GNext p s (t - s.cur_time) = _
    rw [GNext, if_pos (by omega : 1 < s.k + 1)]
  · intro h1
    show GNext p s (t - s.cur_time) = s.G
    rw [GNext, if_neg (by omega : ¬ 1 < s.k + 1)]

/-- C8 witness: the first effective step (`t = 1` from the fresh state)
succeeds, increments the counter, and appends no weight. -/
theorem kernel_weight_step_witness :
    ¬ ((1 : ℚ) - (initState pW).cur_time < 1e-10) ∧
    (advance pW (initState pW) 1).2 = none ∧
    (advance pW (initState pW) 1).1.k = (initState pW).k + 1 ∧
    ((initState pW).k + 1 = 1 →
      (advance pW (initState pW) 1).1.G = (initState pW).G) :=
  ⟨by norm_num [initState],
   (kernel_weight_step pW (initState pW) 1 (by norm_num [initState])
      (by norm_num [initState])).1,
   (kernel_weight_step pW (initState pW) 1 (by norm_num [initState])
      (by norm_num [initState])).2.1,
   (kernel_weight_step pW (initState pW) 1 (by norm_num [initState])
      (by norm_num [initState])).2.2.2⟩

/-! ### C3 — the preallocated capacity

The buffers are preallocated for 1000 steps (`G = zeros(1000)`,
`X = zeros((n, 1000))`).  The weight write `self.G[self.k] = …` happens
*after* `self.k += 1`, so on the 1000th effective step the post-increment
counter is 1000 and the write `G[1000]` is out of bounds: the 1000th call
already raises `IndexError`, after the log-price, the history column, the
counter and the generator position have been mutated.  We drive the engine
with unit time steps to exhibit this. -/

/-- One unit-time `advance` call: `advance(cur_time + 1)`. -/
noncomputable def stepUnit (p : Params) (s : State) : State × Option StepError :=
  advance p s (s.cur_time + 1)

/-- The state after `m` consecutive unit-time `advance` calls from
construction (keeping whatever state a raising call left behind). -/
noncomputable def runSteps (p : Params) : ℕ → State
  | 0 => initState p
  | m + 1 => (stepUnit p (runSteps p m)).1

lemma unit_dt_not_lt_eps (c : ℚ) : ¬ (c + 1 - c < 1e-10) := by
  rw [add_sub_cancel_left]
  norm_num

/-- Step-counter and clock tracking along the unit-step run, while within
capacity. -/
lemma runSteps_k_time (p : Params) : ∀ m, m ≤ 999 →
    (runSteps p m).k = m ∧ (runSteps p m).cur_time = (m : ℚ) := by
  intro m
  induction m with
  | zero => intro _; exact ⟨rfl, rfl⟩
  | succ m ih =>
      intro hm
      obtain ⟨hk, ht⟩ := ih (by omega)
      have hok : advance p (runSteps p m) ((runSteps p m).cur_time + 1)
          = (stepStateOk p (runSteps p m) ((runSteps p m).cur_time + 1), none) :=
        advance_of_ok p _ _ (unit_dt_not_lt_eps _) (by omega)
      have hrun : runSteps p (m + 1)
          = (stepUnit p (runSteps p m)).1 := rfl
      rw [hrun, stepUnit, hok]
      constructor
      · show (runSteps p m).k + 1 = m + 1
        omega
      · show (runSteps p m).cur_time + 1 = ((m + 1 : ℕ) : ℚ)
        rw [ht]
        push_cast
        ring

lemma stepStateErrG_k (p : Params) (s : State) (t : ℚ) :
    (stepStateErrG p s t).k = s.k + 1 := rfl

lemma stepStateErrG_cur_time (p : Params) (s : State) (t : ℚ) :
    (stepStateErrG p s t).cur_time = s.cur_time := rfl

lemma stepStateErrG_V (p : Params) (s : State) (t : ℚ) :
    (stepStateErrG p s t).V = s.V := rfl

lemma stepStateErrG_rngCount (p : Params) (s : State) (t : ℚ) :
    (stepStateErrG p s t).rngCount = s.rngCount + 2 := rfl

/-- C3 counterexample: with unit steps from construction, the 999 previous
calls leave `stepCount = 999` — still within the claimed capacity of 1000
steps — yet the 1000th effective call already fails with the
index-out-of-bounds error (the weight write `G[1000]`), and the failing
call has mutated state: the step counter jumped to 1000 while the clock
did not move, so the failure is neither at the claimed boundary (the
1001st call) nor free of partial mutation. -/
theorem capacity_boundary_cex :
    (runSteps pW 999).k = 999 ∧
    (stepUnit pW (runSteps pW 999)).2 = some StepError.indexOutOfBounds ∧
    (stepUnit pW (runSteps pW 999)).1.k = 1000 ∧
    (stepUnit pW (runSteps pW 999)).1.cur_time = (runSteps pW 999).cur_time ∧
    (stepUnit pW (runSteps pW 999)).1.rngCount
      = (runSteps pW 999).rngCount + 2 := by
  obtain ⟨hk, _⟩ := runSteps_k_time pW 999 (by omega)
  have herr : stepUnit pW (runSteps pW 999)
      = (stepStateErrG pW (runSteps pW 999) ((runSteps pW 999).cur_time + 1),
         some StepError.indexOutOfBounds) :=
    advance_of_errG pW _ _ (unit_dt_not_lt_eps _) hk
  refine ⟨hk, ?_, ?_, ?_, ?_⟩
  · rw [herr]
  · rw [herr, stepStateErrG_k, hk]
  · rw [herr, stepStateErrG_cur_time]
  · rw [herr, stepStateErrG_rngCount]

/-- C3 (amended): with buffers preallocated for 1000 steps, only the first
999 effective `advance` calls complete; the 1000th effective call fails
with an index-out-of-bounds error from the kernel-weight write at the
post-increment index 1000, and it fails only after partially mutating
state — the step counter is already incremented to 1000 and two more
generator calls have been consumed, while the clock and the variance are
left at their pre-call values — rather than failing as a clean,
mutation-free capacity-exceeded rejection. -/
theorem advance_capacity_overflow (p : Params) :
    (∀ m, m < 999 → (stepUnit p (runSteps p m)).2 = none) ∧
    (stepUnit p (runSteps p 999)).2 = some StepError.indexOutOfBounds ∧
    (stepUnit p (runSteps p 999)).1.k = 1000 ∧
    (stepUnit p (runSteps p 999)).1.cur_time = (999 : ℚ) ∧
    (stepUnit p (runSteps p 999)).1.V = (runSteps p 999).V ∧
    (stepUnit p (runSteps p 999)).1.rngCount
      = (runSteps p 999).rngCount + 2 := by
  constructor
  · intro m hm
    obtain ⟨hk, _⟩ := runSteps_k_time p m (by omega)
    have hok : stepUnit p (runSteps p m)
        = (stepStateOk p (runSteps p m) ((runSteps p m).cur_time + 1), none) :=
      advance_of_ok p _ _ (unit_dt_not_lt_eps _) (by omega)
    rw [hok]
  · obtain ⟨hk, ht⟩ := runSteps_k_time p 999 (by omega)
    have herr : stepUnit p (runSteps p 999)
        = (stepStateErrG p (runSteps p 999) ((runSteps p 999).cur_time + 1),
           some StepError.indexOutOfBounds) :=
      advance_of_errG p _ _ (unit_dt_not_lt_eps _) hk
    refine ⟨?_, ?_, ?_, ?_, ?_⟩
    · rw [herr]
    · rw [herr, stepStateErrG_k, hk]
    · rw [herr, stepStateErrG_cur_time, ht]
      norm_num
    · rw [herr, stepStateErrG_V]
    · rw [herr, stepStateErrG_rngCount]

/-- C3 witness: the amended theorem at the demo parameters — the first
unit-step call succeeds, the 1000th fails with the index error. -/
theorem advance_capacity_overflow_witness :
    (stepUnit pW (runSteps pW 0)).2 = none ∧
    (stepUnit pW (runSteps pW 999)).2 = some StepError.indexOutOfBounds :=
  ⟨(advance_capacity_overflow pW).1 0 (by norm_num),
   (advance_capacity_overflow pW).2.1⟩

end RBergomi
